import Mathlib

/-!
Shallow embedding of the nautobot_zero_to_hero repository's network-automation
jobs and scripts, with theorems checking the natural-language specification
against the code.

Embedded sources:
* `jobs/jobs/configure_network_services.py` — the `ConfigureNetworkServices`
  job (per-vendor command builders, platform classification, dry-run gating,
  eAPI push with log-and-continue error handling).
* `jobs/jobs/provision_device.py` — the `ProvisionDevice` job (validation,
  NAPALM load/compare/commit/discard flow with try/except/finally).
* `jobs/jobs/device_sync_napalm.py` — the `DeviceSyncNAPALM` job (NAPALM
  facts/interface sync, connection lifecycle).
* `scripts/5_dynamic_config_access_ports_on_access1_and_access2.py` —
  `assign_loopback_ips` over `ipaddress.ip_network(...).hosts()`.

Python dicts of the config context are embedded as structures with `Option`
fields (`none` = key absent); Python truthiness of optional strings / ints is
made explicit where the source branches on it.  Side effects (logging, device
API calls) are embedded as event traces: each constructor records one call the
Python code makes, in program order.  Exceptions are embedded as an explicit
`Option` error component threaded exactly where the source's `try/except`
blocks sit.
-/

namespace NautobotZeroToHero

/-! ## `configure_network_services.py` : config-context data model -/

/-- Python truthiness of an optional string: `None` and `""` are falsy. -/
def strTruthy : Option String → Bool
  | none => false
  | some s => !s.isEmpty

/-- Python truthiness of an optional integer: `None` and `0` are falsy. -/
def natTruthy : Option Nat → Bool
  | none => false
  | some n => n != 0

/-- One entry of the `syslog_hosts` list: `{"host": ..., "port": ...}`;
`syslog.get('port', 514)` defaults the port to 514. -/
structure SyslogHost where
  host : String
  port : Nat := 514
deriving Repr, DecidableEq

/-- The `logging` sub-dict of `platform_specific`. -/
structure LoggingInfo where
  source_interface : Option String := none
  buffer_size : Option Nat := none
deriving Repr, DecidableEq

/-- The `platform_specific` sub-dict of a device's config context.
`management_interface` defaults to `""` (`platform_info.get('management_interface', '')`). -/
structure PlatformSpecific where
  management_interface : String := ""
  ntp_source_interface : Option String := none
  logging : LoggingInfo := {}
  save_config : Option String := none
deriving Repr, DecidableEq

instance : Inhabited PlatformSpecific := ⟨{}⟩

/-- The `snmp` sub-dict of a config context. -/
structure SnmpInfo where
  community : Option String := none
  location : Option String := none
deriving Repr, DecidableEq

instance : Inhabited SnmpInfo := ⟨{}⟩

/-- A device's rendered config context.  `Option` fields model key presence:
`none` is `'key' not in config_context`. -/
structure ConfigContext where
  platform_specific : Option PlatformSpecific := none
  ntp_servers : Option (List String) := none
  dns_servers : Option (List String) := none
  syslog_hosts : Option (List SyslogHost) := none
  snmp : Option SnmpInfo := none
  domain_name : Option String := none
deriving Repr, DecidableEq

/-! ## `configure_network_services.py` : per-service command builders -/

/-- `ConfigureNetworkServices._build_ntp_config` (lines 141-163). -/
def build_ntp_config (context : ConfigContext) (is_arista : Bool) : List String :=
  let ntp_servers := context.ntp_servers.getD []
  let commands : List String := if is_arista then ["default ntp"] else []
  let commands := commands ++ ntp_servers.map (fun ntp_server =>
    if is_arista then "ntp server " ++ ntp_server
    else "/ system ntp server " ++ ntp_server)
  if is_arista then
    let ntp_source := (context.platform_specific.getD {}).ntp_source_interface
    if strTruthy ntp_source then
      commands ++ ["ntp local-interface " ++ ntp_source.getD ""]
    else commands
  else commands

/-- `ConfigureNetworkServices._build_dns_config` (lines 165-180). -/
def build_dns_config (context : ConfigContext) (is_arista : Bool) : List String :=
  let dns_servers := context.dns_servers.getD []
  let commands : List String := if is_arista then ["default ip name-server"] else []
  commands ++ dns_servers.map (fun dns_server =>
    if is_arista then "ip name-server " ++ dns_server
    else "/ system dns server-list [ " ++ dns_server ++ " ]")

/-- `ConfigureNetworkServices._build_syslog_config` (lines 182-212). -/
def build_syslog_config (context : ConfigContext) (is_arista : Bool)
    (platform_info : PlatformSpecific) : List String :=
  let syslog_hosts := context.syslog_hosts.getD []
  let commands : List String := if is_arista then ["default logging host"] else []
  let commands := commands ++ syslog_hosts.map (fun syslog =>
    if is_arista then "logging host " ++ syslog.host
    else "/ system logging remote-server " ++ syslog.host ++ " port " ++ toString syslog.port)
  if is_arista then
    let logging_config := platform_info.logging
    let commands :=
      if strTruthy logging_config.source_interface then
        commands ++ ["logging source-interface " ++ logging_config.source_interface.getD ""]
      else commands
    if natTruthy logging_config.buffer_size then
      commands ++ ["logging buffered " ++ toString (logging_config.buffer_size.getD 0)]
    else commands
  else commands

/-- `ConfigureNetworkServices._build_snmp_config` (lines 214-235). -/
def build_snmp_config (context : ConfigContext) (is_arista : Bool) : List String :=
  let snmp := context.snmp.getD {}
  let community := snmp.community
  let location := snmp.location
  if is_arista then
    (if strTruthy community || strTruthy location then ["default snmp-server"] else [])
    ++ (if strTruthy community then
          ["snmp-server community " ++ community.getD "" ++ " ro"] else [])
    ++ (if strTruthy location then
          ["snmp-server location " ++ location.getD ""] else [])
  else
    (if strTruthy community then
       ["/ system snmp community " ++ community.getD "" ++ " access-permissions ro"] else [])
    ++ (if strTruthy location then
          ["/ system snmp location " ++ location.getD ""] else [])

/-! ## `configure_network_services.py` : job run loop and eAPI push

Effects are traced as events; the `eapi_fails` oracle bit on a device says
whether the pyeapi calls (`node.config` / `node.enable`) raise for it. -/

/-- A device as the `ConfigureNetworkServices` job sees it: its name, its
rendered config context (`none` = `not device.get_config_context()`), its
primary IP, and an oracle bit telling whether the eAPI calls to it raise. -/
structure NSDevice where
  name : String
  config_context : Option ConfigContext := none
  primary_ip4 : Option String := none
  eapi_fails : Bool := false
deriving Repr, DecidableEq

/-- The boolean job inputs of `ConfigureNetworkServices.run`. -/
structure NSOptions where
  config_ntp : Bool := true
  config_dns : Bool := true
  config_syslog : Bool := true
  config_snmp : Bool := true
  dry_run : Bool := true
deriving Repr, DecidableEq

/-- One observable step of the `ConfigureNetworkServices` job. -/
inductive NSEvent where
  /-- a `continue` branch of the device loop: the device is skipped -/
  | skipped (device : String) (reason : String)
  /-- the non-empty command list built for a device is logged -/
  | built (device : String) (commands : List String)
  /-- `DRY RUN - Configuration not applied` is logged -/
  | dryRunLogged (device : String)
  /-- `No primary IP address ... cannot connect` is logged in `_apply_config` -/
  | noPrimaryIp (device : String)
  /-- the eAPI call (`pyeapi` connect + `node.config`) is attempted -/
  | connectAttempt (device : String)
  /-- `node.config(config_commands)` and `node.enable(save)` succeeded -/
  | pushed (device : String) (commands : List String)
  /-- `Failed to connect ...` is logged in `_apply_config_arista` before re-raising -/
  | connectFailed (device : String)
  /-- `Failed to apply configuration ...` is logged by `_apply_config`'s handler -/
  | applyFailed (device : String)
  /-- `Nokia configuration push not implemented yet`: commands logged for manual use -/
  | nokiaManual (device : String) (commands : List String)
deriving Repr, DecidableEq

/-- `ConfigureNetworkServices._apply_config_arista` (lines 258-284): one pyeapi
connection attempt; on failure the error is logged and the exception re-raised
(the `some` error component). -/
def apply_config_arista (device : NSDevice) (config_commands : List String) :
    List NSEvent × Option String :=
  if device.eapi_fails then
    ([.connectAttempt device.name, .connectFailed device.name], some "eapi error")
  else
    ([.connectAttempt device.name, .pushed device.name config_commands], none)

/-- `ConfigureNetworkServices._apply_config` (lines 237-257): bail out without
connecting when the device has no primary IP; push via eAPI for Arista; log the
commands for manual application for Nokia; catch every exception from the
vendor call and log it (so the job never sees it: the error component is
always `none`). -/
def apply_config (device : NSDevice) (config_commands : List String)
    (is_arista : Bool) : List NSEvent × Option String :=
  match device.primary_ip4 with
  | none => ([.noPrimaryIp device.name], none)
  | some _ =>
    let (evs, exc) :=
      if is_arista then apply_config_arista device config_commands
      else ([.nokiaManual device.name config_commands], none)
    match exc with
    | some _ => (evs ++ [.applyFailed device.name], none)
    | none => (evs, none)

/-- The command list `ConfigureNetworkServices.run` assembles for one device
(lines 83-118): per-service builders guarded by the job inputs and key
presence, then the domain-name commands inserted at the front. -/
def build_commands (opts : NSOptions) (context : ConfigContext)
    (platform_info : PlatformSpecific) (is_arista is_nokia : Bool) : List String :=
  let config_commands : List String := []
  let config_commands := config_commands ++
    (if opts.config_ntp && context.ntp_servers.isSome then
       build_ntp_config context is_arista else [])
  let config_commands := config_commands ++
    (if opts.config_dns && context.dns_servers.isSome then
       build_dns_config context is_arista else [])
  let config_commands := config_commands ++
    (if opts.config_syslog && context.syslog_hosts.isSome then
       build_syslog_config context is_arista platform_info else [])
  let config_commands := config_commands ++
    (if opts.config_snmp && context.snmp.isSome then
       build_snmp_config context is_arista else [])
  match context.domain_name with
  | some d =>
    if is_arista then
      "default dns domain" :: ("dns domain " ++ d) :: config_commands
    else if is_nokia then
      ("/ system name domain-name " ++ d) :: config_commands
    else config_commands
  | none => config_commands

/-- One iteration of the device loop of `ConfigureNetworkServices.run`
(lines 56-134): skip on missing/empty config context, missing
`platform_specific`, unknown platform, or empty command list; otherwise log
the commands and, unless `dry_run`, call `_apply_config`. -/
def process_device (opts : NSOptions) (device : NSDevice) :
    List NSEvent × Option String :=
  match device.config_context with
  | none => ([.skipped device.name "no config context"], none)
  | some context =>
    match context.platform_specific with
    | none => ([.skipped device.name "no platform_specific"], none)
    | some platform_info =>
      let mgmt_interface := platform_info.management_interface
      let is_arista := mgmt_interface == "Management0"
      let is_nokia := mgmt_interface == "mgmt0"
      if !is_arista && !is_nokia then
        ([.skipped device.name "unknown platform"], none)
      else
        let config_commands := build_commands opts context platform_info is_arista is_nokia
        if config_commands.isEmpty then
          ([.skipped device.name "no commands"], none)
        else if !opts.dry_run then
          let (evs, exc) := apply_config device config_commands is_arista
          (NSEvent.built device.name config_commands :: evs, exc)
        else
          ([.built device.name config_commands, .dryRunLogged device.name], none)

/-- The device loop of `ConfigureNetworkServices.run`: an exception escaping a
loop iteration aborts the loop and propagates out of `run` (the `some`
component); otherwise the next device is processed. -/
def ns_run : NSOptions → List NSDevice → List NSEvent × Option String
  | _, [] => ([], none)
  | opts, device :: rest =>
    let (evs, exc) := process_device opts device
    match exc with
    | some e => (evs, some e)
    | none =>
      let (evs2, exc2) := ns_run opts rest
      (evs ++ evs2, exc2)

/-- Events recording a device interaction (anything `_apply_config` can emit
once it is called). -/
def isApplyEvent : NSEvent → Bool
  | .noPrimaryIp _ => true
  | .connectAttempt _ => true
  | .pushed _ _ => true
  | .connectFailed _ => true
  | .applyFailed _ => true
  | .nokiaManual _ _ => true
  | _ => false

/-- Events recording a vendor-API push attempt (the eAPI connection or a
successful `node.config`). -/
def isVendorPush : NSEvent → Bool
  | .connectAttempt _ => true
  | .pushed _ _ => true
  | _ => false

/-- Whether an event is the eAPI connection attempt for a named device. -/
def isConnectAttemptFor (device : String) : NSEvent → Bool
  | .connectAttempt d => d == device
  | _ => false

/-- Count of eAPI connection attempts for a named device in a trace. -/
def countConnectAttempts (device : String) (evs : List NSEvent) : Nat :=
  evs.countP (isConnectAttemptFor device)

/-! ## `provision_device.py` : `ProvisionDevice` job

NAPALM device operations are an oracle of success bits plus the diff string
`compare_config` would return; the trace records each NAPALM call the Python
code makes, in order, and the `try/except/finally` of `_deploy_config` is
embedded branch by branch. -/

/-- A device platform (`device.platform`); `napalm_driver` is a CharField, so
the Python falsy test `not device.platform.napalm_driver` is emptiness. -/
structure PDPlatform where
  name : String := ""
  napalm_driver : String := ""
deriving Repr, DecidableEq

/-- A device as `ProvisionDevice` sees it. -/
structure PDDevice where
  name : String
  platform : Option PDPlatform := none
  primary_ip4 : Option String := none
deriving Repr, DecidableEq

/-- Outcome oracle for one NAPALM session: whether each driver call succeeds,
and the diff `compare_config` returns when it succeeds. -/
structure NapalmOracle where
  driver_ok : Bool := true
  open_ok : Bool := true
  load_ok : Bool := true
  compare_ok : Bool := true
  diff : String := ""
  commit_ok : Bool := true
  get_facts_ok : Bool := true
  discard_ok : Bool := true
deriving Repr, DecidableEq

/-- The exception classes `_deploy_config` distinguishes in its handlers. -/
inductive PDErr where
  /-- `napalm.base.exceptions.ConnectionException` -/
  | conn
  /-- `CommitError` or `ReplaceConfigException` -/
  | commitOrReplace
  /-- any other `Exception` -/
  | generic
deriving Repr, DecidableEq

/-- One NAPALM / job call made by `ProvisionDevice`. -/
inductive PDEvent where
  | validateCall
  | credentialsCall
  | intendedConfigCall
  | openCall
  | loadReplaceCall
  | loadMergeCall
  | compareCall
  | discardCall
  | commitCall
  | getFactsCall
  | closeCall
deriving Repr, DecidableEq

/-- The NAPALM session inside the `try:` body of `ProvisionDevice._deploy_config`
(lines 250-303), once `napalm_device` has been constructed: the calls made and
the exception escaping the body, if any. -/
def deploy_session (dry_run replace commit : Bool) (o : NapalmOracle) :
    List PDEvent × Option PDErr :=
  let evs : List PDEvent := [.openCall]
  if !o.open_ok then (evs, some .conn)
  else
    let evs := evs ++ [if replace then PDEvent.loadReplaceCall else PDEvent.loadMergeCall]
    if !o.load_ok then
      (evs, some (if replace then PDErr.commitOrReplace else PDErr.generic))
    else
      let evs := evs ++ [PDEvent.compareCall]
      if !o.compare_ok then (evs, some .generic)
      else if o.diff.isEmpty then
        let evs := evs ++ [PDEvent.discardCall]
        (evs, if o.discard_ok then none else some .generic)
      else if dry_run then
        let evs := evs ++ [PDEvent.discardCall]
        (evs, if o.discard_ok then none else some .generic)
      else if commit then
        let evs := evs ++ [PDEvent.commitCall]
        if !o.commit_ok then (evs, some .commitOrReplace)
        else
          let evs := evs ++ [PDEvent.getFactsCall]
          (evs, if o.get_facts_ok then none else some .generic)
      else
        let evs := evs ++ [PDEvent.discardCall]
        (evs, if o.discard_ok then none else some .generic)

/-- The `try:` body of `ProvisionDevice._deploy_config` (lines 240-303):
the calls made, the exception escaping the body if any, and whether
`napalm_device` was assigned (it stays `None` only when `get_network_driver`
itself raises). -/
def deploy_body (dry_run replace commit : Bool) (o : NapalmOracle) :
    List PDEvent × Option PDErr × Bool :=
  if !o.driver_ok then ([], some .generic, false)
  else
    ((deploy_session dry_run replace commit o).1,
     (deploy_session dry_run replace commit o).2, true)

/-- `ProvisionDevice._deploy_config` (lines 220-337): the `try:` body, then the
exception handlers (the generic handler attempts a `discard_config`, itself
guarded by `if napalm_device` and an inner swallow-everything `try`), then the
`finally:` block closing the connection whenever `napalm_device` was assigned
(the inner `try` swallows close errors).  Every handler logs and returns, so
`_deploy_config` never re-raises. -/
def deploy_config (dry_run replace commit : Bool) (o : NapalmOracle) : List PDEvent :=
  let (evs, exc, constructed) := deploy_body dry_run replace commit o
  let evs :=
    match exc with
    | some .generic => if constructed then evs ++ [PDEvent.discardCall] else evs
    | _ => evs
  if constructed then evs ++ [PDEvent.closeCall] else evs

/-- `ProvisionDevice._validate_device` (lines 97-117). -/
def validate_device (device : PDDevice) : Bool :=
  match device.platform with
  | none => false
  | some platform =>
    if platform.napalm_driver.isEmpty then false
    else device.primary_ip4.isSome

/-- `ProvisionDevice.run` (lines 63-95): validate, then fetch credentials,
then the intended config (`none` = Golden Config produced nothing, a Python
falsy value), then deploy. -/
def provision_run (device : PDDevice) (dry_run replace commit : Bool)
    (intended_config : Option String) (o : NapalmOracle) : List PDEvent :=
  let evs : List PDEvent := [.validateCall]
  if !validate_device device then evs
  else
    let evs := evs ++ [PDEvent.credentialsCall, PDEvent.intendedConfigCall]
    match intended_config with
    | none => evs
    | some _ => evs ++ deploy_config dry_run replace commit o

/-! ## `device_sync_napalm.py` : `DeviceSyncNAPALM` job -/

/-- Outcome oracle for the NAPALM calls `DeviceSyncNAPALM.run` makes. -/
structure SyncOracle where
  open_ok : Bool := true
  get_facts_ok : Bool := true
  get_interfaces_ok : Bool := true
  get_interfaces_ip_ok : Bool := true
deriving Repr, DecidableEq

/-- A device as `DeviceSyncNAPALM` sees it: whether it has a platform with a
NAPALM driver, and its primary IPv4. -/
structure SyncDevice where
  name : String
  has_napalm_driver : Bool := true
  primary_ip4 : Option String := none
deriving Repr, DecidableEq

/-- One step of `DeviceSyncNAPALM.run`. -/
inductive SyncEvent where
  | errorLogged (what : String)
  | openCall
  | getFactsCall
  | deviceSaved
  | getInterfacesCall
  | getInterfacesIpCall
  | closeCall
deriving Repr, DecidableEq

/-- `DeviceSyncNAPALM.run` (lines 32-199): driver and IP guards, then one
`try:` whose handlers log and return without closing; `get_interfaces_ip` has
its own inner `try` that only warns, so `close()` still runs after it; the
`close()` call sits on the success path only (line 191), not in a `finally`. -/
def device_sync_run (device : SyncDevice) (o : SyncOracle) : List SyncEvent :=
  if !device.has_napalm_driver then [.errorLogged "no platform or NAPALM driver"]
  else
    match device.primary_ip4 with
    | none => [.errorLogged "no primary IPv4 address"]
    | some _ =>
      let evs : List SyncEvent := [.openCall]
      if !o.open_ok then evs ++ [.errorLogged "connection error"]
      else
        let evs := evs ++ [SyncEvent.getFactsCall]
        if !o.get_facts_ok then evs ++ [.errorLogged "error syncing device"]
        else
          let evs := evs ++ [SyncEvent.deviceSaved, SyncEvent.getInterfacesCall]
          if !o.get_interfaces_ok then evs ++ [.errorLogged "error syncing device"]
          else
            let evs := evs ++ [SyncEvent.getInterfacesIpCall]
            let evs := if !o.get_interfaces_ip_ok then
              evs ++ [SyncEvent.errorLogged "could not fetch interface IPs"] else evs
            evs ++ [SyncEvent.closeCall]

/-! ## `5_dynamic_config_access_ports_on_access1_and_access2.py` :
`assign_loopback_ips` -/

/-- The host addresses of an IPv4 network, as `ipaddress.ip_network(...).hosts()`
yields them (addresses as numbers): for prefixes up to /30 every address except
the network and broadcast addresses, for /31 and /32 every address. -/
def ipNetworkHosts (network prefixLen : Nat) : List Nat :=
  let size := 2 ^ (32 - prefixLen)
  if 31 ≤ prefixLen then (List.range size).map (fun i => network + i)
  else (List.range (size - 2)).map (fun i => network + 1 + i)

/-- A Python dict update `m[k] = v`: replace in place when the key exists,
append otherwise. -/
def dictInsert (m : List (String × Nat)) (k : String) (v : Nat) : List (String × Nat) :=
  if m.any (fun p => p.1 == k) then
    m.map (fun p => if p.1 == k then (k, v) else p)
  else m ++ [(k, v)]

/-- The loop of `assign_loopback_ips`: `for idx, name in enumerate(device_names):
mapping[name] = str(hosts[idx])`; `none` is the `IndexError` raised by the
unguarded `hosts[idx]`. -/
def assignLoop (hosts : List Nat) (mapping : List (String × Nat)) (idx : Nat) :
    List String → Option (List (String × Nat))
  | [] => some mapping
  | name :: rest =>
    match hosts.get? idx with
    | none => none
    | some h => assignLoop hosts (dictInsert mapping name h) (idx + 1) rest

/-- `assign_loopback_ips` (script lines 32-39), the subnet given as network
address and prefix length.  The result is the insertion-ordered dict, `none`
when the indexing `hosts[idx]` goes out of bounds. -/
def assign_loopback_ips (network prefixLen : Nat) (device_names : List String) :
    Option (List (String × Nat)) :=
  let hosts := ipNetworkHosts network prefixLen
  assignLoop hosts [] 0 device_names

/-! ## Helper lemmas -/

/-- A string extending a prefix longer than `t` is not `t`. -/
theorem append_ne_of_shorter (pre s t : String) (h : t.length < pre.length) :
    pre ++ s ≠ t := by
  intro he
  have hl := congrArg String.length he
  rw [String.length_append] at hl
  omega

/-- Three-part version of `append_ne_of_shorter`. -/
theorem append3_ne_of_shorter (a b c t : String) (h : t.length < a.length) :
    a ++ b ++ c ≠ t := by
  intro he
  have hl := congrArg String.length he
  simp only [String.length_append] at hl
  omega

/-- Four-part version of `append_ne_of_shorter`. -/
theorem append4_ne_of_shorter (a b c d t : String) (h : t.length < a.length) :
    a ++ b ++ c ++ d ≠ t := by
  intro he
  have hl := congrArg String.length he
  simp only [String.length_append] at hl
  omega

/-! ## Theorems about the per-service builders -/

/-- **C3**: for Arista devices each of the four service builders follows
"default then re-apply" sequencing: a non-empty output starts with the
vendor reset command (`default ntp`, `default ip name-server`,
`default logging host`, `default snmp-server`), so every re-apply command
comes after it; for Nokia devices no reset command is ever emitted. -/
theorem builders_default_then_reapply (context : ConfigContext)
    (platform_info : PlatformSpecific) :
    ((build_ntp_config context true ≠ [] →
        (build_ntp_config context true).head? = some "default ntp")
      ∧ "default ntp" ∉ build_ntp_config context false)
    ∧ ((build_dns_config context true ≠ [] →
        (build_dns_config context true).head? = some "default ip name-server")
      ∧ "default ip name-server" ∉ build_dns_config context false)
    ∧ ((build_syslog_config context true platform_info ≠ [] →
        (build_syslog_config context true platform_info).head? = some "default logging host")
      ∧ "default logging host" ∉ build_syslog_config context false platform_info)
    ∧ ((build_snmp_config context true ≠ [] →
        (build_snmp_config context true).head? = some "default snmp-server")
      ∧ "default snmp-server" ∉ build_snmp_config context false) := by
  refine ⟨⟨?_, ?_⟩, ⟨?_, ?_⟩, ⟨?_, ?_⟩, ⟨?_, ?_⟩⟩
  · intro _
    by_cases h : strTruthy (context.platform_specific.getD {}).ntp_source_interface <;>
      simp [build_ntp_config, h]
  · simp only [build_ntp_config, Bool.false_eq_true, if_false, List.nil_append,
      List.mem_map, not_exists]
    rintro x ⟨-, hx⟩
    exact append_ne_of_shorter _ _ _ (by decide) hx
  · intro _
    simp [build_dns_config]
  · simp only [build_dns_config, Bool.false_eq_true, if_false, List.nil_append,
      List.mem_map, not_exists]
    rintro x ⟨-, hx⟩
    exact append3_ne_of_shorter _ _ _ _ (by decide) hx
  · intro _
    by_cases h1 : strTruthy platform_info.logging.source_interface <;>
      by_cases h2 : natTruthy platform_info.logging.buffer_size <;>
        simp [build_syslog_config, h1, h2]
  · simp only [build_syslog_config, Bool.false_eq_true, if_false, List.nil_append,
      List.mem_map, not_exists]
    rintro x ⟨-, hx⟩
    exact append4_ne_of_shorter _ _ _ _ _ (by decide) hx
  · intro hne
    by_cases h1 : strTruthy (context.snmp.getD {}).community <;>
      by_cases h2 : strTruthy (context.snmp.getD {}).location <;>
        simp [build_snmp_config, h1, h2] at hne ⊢
  · by_cases h1 : strTruthy (context.snmp.getD {}).community <;>
      by_cases h2 : strTruthy (context.snmp.getD {}).location <;>
        simp only [build_snmp_config, Bool.false_eq_true, if_false, h1, h2, if_true,
          List.mem_append, List.mem_singleton, List.append_nil, List.nil_append,
          List.not_mem_nil, not_or, or_false, false_or, not_false_iff]
    all_goals try constructor
    all_goals
      first
        | exact fun h => append3_ne_of_shorter _ _ _ _ (by decide) h.symm
        | exact fun h => append_ne_of_shorter _ _ _ (by decide) h.symm

/-- Witness for `builders_default_then_reapply`: a concrete config context with
one server per service, evaluated for both vendors. -/
theorem builders_default_then_reapply_witness :
    (build_ntp_config
        { ntp_servers := some ["10.0.0.1"],
          platform_specific := some { management_interface := "Management0" } }
        true).head? = some "default ntp" :=
  ((builders_default_then_reapply
      { ntp_servers := some ["10.0.0.1"],
        platform_specific := some { management_interface := "Management0" } }
      default).1.1) (by decide)

/-- **C4**: the per-vendor NTP dialect is a pure lookup: for Arista the builder
returns `default ntp`, then one `ntp server S` per server `S` in input order,
then `ntp local-interface I` when `platform_specific.ntp_source_interface` is
set (truthy); for Nokia exactly one `/ system ntp server S` per server, in
input order, and nothing else. -/
theorem ntp_dialect_lookup (context : ConfigContext) :
    build_ntp_config context true =
      "default ntp" ::
        ((context.ntp_servers.getD []).map (fun s => "ntp server " ++ s)
          ++ (if strTruthy (context.platform_specific.getD {}).ntp_source_interface then
                ["ntp local-interface " ++
                  ((context.platform_specific.getD {}).ntp_source_interface).getD ""]
              else []))
    ∧ build_ntp_config context false =
        (context.ntp_servers.getD []).map (fun s => "/ system ntp server " ++ s) := by
  constructor
  · by_cases h : strTruthy (context.platform_specific.getD {}).ntp_source_interface <;>
      simp [build_ntp_config, h]
  · simp [build_ntp_config]

/-! ## Theorems about the `ConfigureNetworkServices` run loop -/

/-- `_apply_config` catches every exception from the vendor call, so it never
re-raises. -/
theorem apply_config_no_exc (device : NSDevice) (cmds : List String)
    (is_arista : Bool) : (apply_config device cmds is_arista).2 = none := by
  unfold apply_config apply_config_arista
  cases device.primary_ip4 <;> cases is_arista <;> cases h : device.eapi_fails <;> simp [h]

/-- No loop iteration of `ConfigureNetworkServices.run` lets an exception
escape. -/
theorem process_device_no_exc (opts : NSOptions) (device : NSDevice) :
    (process_device opts device).2 = none := by
  obtain ⟨name, cc, ip, fails⟩ := device
  rcases cc with - | ⟨ps, ntp, dns, sys, snmp, dom⟩
  · rfl
  rcases ps with - | platform_info
  · rfl
  rw [process_device]
  dsimp only
  split
  · rfl
  split
  · rfl
  split
  · rcases h : apply_config ⟨name, _, ip, fails⟩ _ _ with ⟨evs, exc⟩
    have hx := apply_config_no_exc ⟨name,
      some ⟨some platform_info, ntp, dns, sys, snmp, dom⟩, ip, fails⟩
      (build_commands opts ⟨some platform_info, ntp, dns, sys, snmp, dom⟩ platform_info
        (platform_info.management_interface == "Management0")
        (platform_info.management_interface == "mgmt0"))
      (platform_info.management_interface == "Management0")
    rw [h] at hx
    simpa [h] using hx
  · rfl

/-- In a dry run an iteration only skips or builds and logs. -/
theorem process_device_dry_run (opts : NSOptions) (device : NSDevice)
    (hdry : opts.dry_run = true) :
    ∀ e ∈ (process_device opts device).1, isApplyEvent e = false := by
  obtain ⟨name, cc, ip, fails⟩ := device
  rcases cc with - | ⟨ps, ntp, dns, sys, snmp, dom⟩
  · simp [process_device, isApplyEvent]
  rcases ps with - | platform_info
  · simp [process_device, isApplyEvent]
  rw [process_device]
  dsimp only
  split
  · simp [isApplyEvent]
  split
  · simp [isApplyEvent]
  rw [hdry]
  simp [isApplyEvent]

/-- An iteration makes at most one eAPI connection attempt for its device:
there is no retry anywhere in `_apply_config` / `_apply_config_arista`. -/
theorem process_device_connect_le_one (opts : NSOptions) (device : NSDevice) :
    countConnectAttempts device.name (process_device opts device).1 ≤ 1 := by
  obtain ⟨name, cc, ip, fails⟩ := device
  rcases cc with - | ⟨ps, ntp, dns, sys, snmp, dom⟩
  · simp [process_device, countConnectAttempts, isConnectAttemptFor]
  rcases ps with - | platform_info
  · simp [process_device, countConnectAttempts, isConnectAttemptFor]
  rw [process_device]
  dsimp only
  split
  · simp [countConnectAttempts, isConnectAttemptFor]
  split
  · simp [countConnectAttempts, isConnectAttemptFor]
  split
  · rw [apply_config]
    rcases ip with - | ipaddr
    · simp [countConnectAttempts, isConnectAttemptFor, List.countP_cons]
    · rw [apply_config_arista]
      cases h : platform_info.management_interface == "Management0" <;>
        cases hf : fails <;>
          simp [h, hf, countConnectAttempts, isConnectAttemptFor, List.countP_cons,
            isConnectAttemptFor]
  · simp [countConnectAttempts, isConnectAttemptFor]

/-- The device loop never propagates an exception. -/
theorem ns_run_no_exc (opts : NSOptions) (devices : List NSDevice) :
    (ns_run opts devices).2 = none := by
  induction devices with
  | nil => rfl
  | cons d rest ih =>
    rw [ns_run]
    rcases h : process_device opts d with ⟨evs, exc⟩
    have hx := process_device_no_exc opts d
    rw [h] at hx
    subst hx
    simpa using ih

/-- The run trace is the concatenation of every device's iteration trace. -/
theorem ns_run_flatMap (opts : NSOptions) (devices : List NSDevice) :
    (ns_run opts devices).1 =
      devices.flatMap (fun d => (process_device opts d).1) := by
  induction devices with
  | nil => rfl
  | cons d rest ih =>
    rw [ns_run]
    rcases h : process_device opts d with ⟨evs, exc⟩
    have hx := process_device_no_exc opts d
    rw [h] at hx
    subst hx
    simp [List.flatMap_cons, h, ih]

/-- **C6**: a vendor-call failure on one device is logged and does not abort
the run: the run loop never propagates an exception, its trace is exactly the
concatenation of every device's iteration trace (so every device after a
failing one is still processed), and each iteration makes at most one eAPI
connection attempt for its device (no retry). -/
theorem apply_failure_does_not_abort_run (opts : NSOptions)
    (devices : List NSDevice) :
    (ns_run opts devices).2 = none
    ∧ (ns_run opts devices).1 =
        devices.flatMap (fun d => (process_device opts d).1)
    ∧ ∀ d ∈ devices,
        countConnectAttempts d.name (process_device opts d).1 ≤ 1 :=
  ⟨ns_run_no_exc opts devices, ns_run_flatMap opts devices,
    fun d _ => process_device_connect_le_one opts d⟩

/-- Concrete Arista access switch whose eAPI call fails. -/
def acc1Failing : NSDevice :=
  { name := "acc1",
    config_context := some
      { platform_specific := some { management_interface := "Management0" },
        ntp_servers := some ["10.0.0.1"] },
    primary_ip4 := some "172.20.20.12",
    eapi_fails := true }

/-- Witness for `apply_failure_does_not_abort_run`: a device that fails its
eAPI call still makes at most one connection attempt. -/
theorem apply_failure_does_not_abort_run_witness :
    countConnectAttempts "acc1" (process_device { dry_run := false } acc1Failing).1 ≤ 1 :=
  (apply_failure_does_not_abort_run { dry_run := false } [acc1Failing]).2.2
    acc1Failing (List.mem_singleton_self acc1Failing)

/-- **C8**: with `dry_run` true the job never calls `_apply_config`: no device
interaction event of any kind appears in the run trace (commands are only
logged), and no exception escapes. -/
theorem dry_run_never_applies (opts : NSOptions) (devices : List NSDevice)
    (hdry : opts.dry_run = true) :
    (∀ e ∈ (ns_run opts devices).1, isApplyEvent e = false)
    ∧ (ns_run opts devices).2 = none := by
  refine ⟨?_, ns_run_no_exc opts devices⟩
  rw [ns_run_flatMap opts devices]
  intro e he
  rw [List.mem_flatMap] at he
  obtain ⟨d, -, hd⟩ := he
  exact process_device_dry_run opts d hdry e hd

/-- Witness for `dry_run_never_applies`: a dry run over one fully configured
Arista device produces no device-interaction events. -/
theorem dry_run_never_applies_witness :
    (ns_run {}
      [{ name := "acc2",
         config_context := some
           { platform_specific := some { management_interface := "Management0" },
             ntp_servers := some ["10.0.0.1"] },
         primary_ip4 := some "172.20.20.13" }]).2 = none :=
  (dry_run_never_applies {} _ rfl).2

/-- **C9**: platform classification uses only the config context: a missing or
empty config context, a missing `platform_specific` key, or a
`management_interface` other than `Management0` / `mgmt0` makes the loop skip
the device with no commands built or applied; `Management0` selects the Arista
dialect and `mgmt0` the Nokia dialect for the built command list, and an empty
build also skips. -/
theorem classification_from_config_context (opts : NSOptions) (device : NSDevice) :
    (device.config_context = none →
       (process_device opts device).1 = [.skipped device.name "no config context"])
    ∧ (∀ context, device.config_context = some context →
       context.platform_specific = none →
       (process_device opts device).1 = [.skipped device.name "no platform_specific"])
    ∧ (∀ context platform_info, device.config_context = some context →
       context.platform_specific = some platform_info →
       platform_info.management_interface ≠ "Management0" →
       platform_info.management_interface ≠ "mgmt0" →
       (process_device opts device).1 = [.skipped device.name "unknown platform"])
    ∧ (∀ context platform_info, device.config_context = some context →
       context.platform_specific = some platform_info →
       platform_info.management_interface = "Management0" →
       build_commands opts context platform_info true false ≠ [] →
       (process_device opts device).1.head? =
         some (.built device.name (build_commands opts context platform_info true false)))
    ∧ (∀ context platform_info, device.config_context = some context →
       context.platform_specific = some platform_info →
       platform_info.management_interface = "mgmt0" →
       build_commands opts context platform_info false true ≠ [] →
       (process_device opts device).1.head? =
         some (.built device.name (build_commands opts context platform_info false true)))
    ∧ (∀ context platform_info, device.config_context = some context →
       context.platform_specific = some platform_info →
       (platform_info.management_interface = "Management0" ∨
        platform_info.management_interface = "mgmt0") →
       build_commands opts context platform_info
           (platform_info.management_interface == "Management0")
           (platform_info.management_interface == "mgmt0") = [] →
       (process_device opts device).1 = [.skipped device.name "no commands"]) := by
  refine ⟨?_, ?_, ?_, ?_, ?_, ?_⟩
  · intro hcc
    simp [process_device, hcc]
  · intro context hcc hps
    simp [process_device, hcc, hps]
  · intro context platform_info hcc hps h1 h2
    have e1 : (platform_info.management_interface == "Management0") = false := by
      simp [h1]
    have e2 : (platform_info.management_interface == "mgmt0") = false := by
      simp [h2]
    simp [process_device, hcc, hps, e1, e2]
  · intro context platform_info hcc hps hm hcmds
    have hne : (build_commands opts context platform_info true false).isEmpty = false := by
      simpa [List.isEmpty_iff] using hcmds
    cases hdry : opts.dry_run <;>
      simp [process_device, hcc, hps, hm, hne, hdry]
  · intro context platform_info hcc hps hm hcmds
    have hne : (build_commands opts context platform_info false true).isEmpty = false := by
      simpa [List.isEmpty_iff] using hcmds
    cases hdry : opts.dry_run <;>
      simp [process_device, hcc, hps, hm, hne, hdry]
  · intro context platform_info hcc hps hknown hcmds
    rcases hknown with hm | hm <;> simp [hm] at hcmds <;>
      simp [process_device, hcc, hps, hm, hcmds]

/-- Witness for `classification_from_config_context`: a device whose config
context names an unknown management interface is skipped. -/
theorem classification_from_config_context_witness :
    (process_device {}
      { name := "ios1",
        config_context := some
          { platform_specific := some { management_interface := "GigabitEthernet0/0" } } }).1 =
      [.skipped "ios1" "unknown platform"] :=
  (classification_from_config_context {}
      { name := "ios1",
        config_context := some
          { platform_specific := some { management_interface := "GigabitEthernet0/0" } } }).2.2.1
    _ _ rfl rfl (by decide) (by decide)

/-- Concrete Nokia SR Linux leaf with one NTP server in its config context. -/
def nokiaLeaf : NSDevice :=
  { name := "leaf1",
    config_context := some
      { platform_specific := some { management_interface := "mgmt0" },
        ntp_servers := some ["10.0.0.1"] },
    primary_ip4 := some "172.20.20.2" }

/-- **C1** counterexample: a live run (`dry_run` false) over a Nokia SR Linux
device with a non-empty built command list makes no vendor-API push at all:
the trace is just the build log and the
`Nokia configuration push not implemented yet` manual-commands log. -/
theorem nokia_push_counterexample :
    process_device { dry_run := false } nokiaLeaf =
      ([.built "leaf1" ["/ system ntp server 10.0.0.1"],
        .nokiaManual "leaf1" ["/ system ntp server 10.0.0.1"]], none)
    ∧ (process_device { dry_run := false } nokiaLeaf).1.all
        (fun e => !isVendorPush e) = true := by
  decide

/-- **C1** (amended): the Nokia configuration push is not implemented: for a
Nokia-classified device with `dry_run` false, a primary IP and a non-empty
command list the job only logs the commands for manual application and makes
no vendor-API call, while an Arista device with a primary IP and a working
eAPI endpoint has its commands pushed over eAPI. -/
theorem nokia_not_pushed_arista_pushed (opts : NSOptions) (device : NSDevice)
    (context : ConfigContext) (platform_info : PlatformSpecific) (ip : String)
    (hcc : device.config_context = some context)
    (hps : context.platform_specific = some platform_info)
    (hmgmt : platform_info.management_interface = "mgmt0")
    (hdry : opts.dry_run = false)
    (hip : device.primary_ip4 = some ip)
    (hcmds : build_commands opts context platform_info false true ≠ []) :
    (process_device opts device).1 =
      [.built device.name (build_commands opts context platform_info false true),
       .nokiaManual device.name (build_commands opts context platform_info false true)]
    ∧ (∀ e ∈ (process_device opts device).1, isVendorPush e = false)
    ∧ (∀ (dev : NSDevice) (cmds : List String) (ip2 : String),
        dev.primary_ip4 = some ip2 → dev.eapi_fails = false →
        NSEvent.pushed dev.name cmds ∈ (apply_config dev cmds true).1) := by
  have hne : (build_commands opts context platform_info false true).isEmpty = false := by
    simpa [List.isEmpty_iff] using hcmds
  have hmain : (process_device opts device).1 =
      [.built device.name (build_commands opts context platform_info false true),
       .nokiaManual device.name (build_commands opts context platform_info false true)] := by
    simp [process_device, hcc, hps, hmgmt, hdry, hne, apply_config]
    simp [hip]
  refine ⟨hmain, ?_, ?_⟩
  · rw [hmain]
    intro e he
    simp only [List.mem_cons, List.not_mem_nil, or_false] at he
    rcases he with he | he <;> subst he <;> rfl
  · intro dev cmds ip2 hip2 hfail
    simp [apply_config, apply_config_arista, hip2, hfail]

/-- Witness for `nokia_not_pushed_arista_pushed`, at the concrete Nokia leaf. -/
theorem nokia_not_pushed_arista_pushed_witness :
    (process_device { dry_run := false } nokiaLeaf).1.all
      (fun e => !isVendorPush e) = true := by
  have h := (nokia_not_pushed_arista_pushed { dry_run := false } nokiaLeaf
    _ _ "172.20.20.2" rfl rfl rfl rfl rfl (by decide)).2.1
  rw [List.all_eq_true]
  intro e he
  simp [h e he]

/-! ## Theorems about `ProvisionDevice` and `DeviceSyncNAPALM` -/

/-- Once `get_network_driver` succeeds, `napalm_device` is assigned in every
branch of the `try:` body of `_deploy_config`. -/
theorem deploy_body_constructed (dry_run replace commit : Bool) (o : NapalmOracle)
    (h : o.driver_ok = true) : (deploy_body dry_run replace commit o).2.2 = true := by
  rw [deploy_body, h]
  rfl

/-- **C2**: in `_deploy_config`, whenever the NAPALM calls up to
`compare_config` succeed, the candidate is loaded first (replace when
`replace_config` is true, merge otherwise) and the diff is computed right
after; an empty diff discards the candidate and never commits; a non-empty
diff under `dry_run` discards the candidate; and `commit_config` is called
exactly when the diff is non-empty, `dry_run` is false and `commit_changes`
is true. -/
theorem deploy_config_commit_discipline (dry_run replace commit : Bool)
    (o : NapalmOracle) (hdrv : o.driver_ok = true) (hopen : o.open_ok = true)
    (hload : o.load_ok = true) (hcmp : o.compare_ok = true) :
    (∃ rest, deploy_config dry_run replace commit o =
       .openCall :: (if replace then PDEvent.loadReplaceCall else PDEvent.loadMergeCall) ::
         .compareCall :: rest)
    ∧ (o.diff.isEmpty = true →
        PDEvent.discardCall ∈ deploy_config dry_run replace commit o
        ∧ PDEvent.commitCall ∉ deploy_config dry_run replace commit o)
    ∧ (o.diff.isEmpty = false → dry_run = true →
        PDEvent.discardCall ∈ deploy_config dry_run replace commit o
        ∧ PDEvent.commitCall ∉ deploy_config dry_run replace commit o)
    ∧ (PDEvent.commitCall ∈ deploy_config dry_run replace commit o ↔
        o.diff.isEmpty = false ∧ dry_run = false ∧ commit = true) := by
  obtain ⟨drv, op, ld, cm, diff, cmt, gf, dc⟩ := o
  simp only at hdrv hopen hload hcmp
  subst hdrv; subst hopen; subst hload; subst hcmp
  refine ⟨?_, ?_, ?_, ?_⟩
  · cases hdiff : diff.isEmpty <;> cases dry_run <;> cases commit <;> cases replace <;>
      cases cmt <;> cases gf <;> cases dc <;>
        (simp only [deploy_config, deploy_body, deploy_session, hdiff]; exact ⟨_, rfl⟩)
  · intro hdiff
    cases dry_run <;> cases commit <;> cases replace <;>
      cases cmt <;> cases gf <;> cases dc <;>
        simp [deploy_config, deploy_body, deploy_session, hdiff]
  · intro hdiff hdry
    subst hdry
    cases commit <;> cases replace <;> cases cmt <;> cases gf <;> cases dc <;>
      simp [deploy_config, deploy_body, deploy_session, hdiff]
  · cases hdiff : diff.isEmpty <;> cases dry_run <;> cases commit <;> cases replace <;>
      cases cmt <;> cases gf <;> cases dc <;>
        simp [deploy_config, deploy_body, deploy_session, hdiff]

/-- Witness for `deploy_config_commit_discipline`: a live, merge-mode run with
a non-empty diff and commit enabled does call `commit_config`. -/
theorem deploy_config_commit_discipline_witness :
    PDEvent.commitCall ∈ deploy_config false false true { diff := "+ntp" } :=
  ((deploy_config_commit_discipline false false true { diff := "+ntp" }
      rfl rfl rfl rfl).2.2.2).mpr ⟨rfl, rfl, rfl⟩

/-- Concrete sync target: a device with a driver and a primary IP. -/
def spine1 : SyncDevice := { name := "spine1", primary_ip4 := some "172.20.20.11" }

/-- **C5** counterexample: in `DeviceSyncNAPALM.run`, when `get_facts` raises
after the connection was opened, the generic handler logs and returns without
ever calling `close()`: the session is left open when `run` returns. -/
theorem device_sync_leaves_connection_open :
    SyncEvent.openCall ∈ device_sync_run spine1 { get_facts_ok := false }
    ∧ SyncEvent.closeCall ∉ device_sync_run spine1 { get_facts_ok := false } := by
  decide

/-- **C5** (amended): a NAPALM connection opened by
`ProvisionDevice._deploy_config` is always closed before the method returns —
`close()` sits in a `finally:` block — on the success path and on every
exception path; `DeviceSyncNAPALM.run`, by contrast, closes its connection
only on the success path: when every call after `open()` succeeds the trace
ends with `close()`, but when a call such as `get_facts` raises after `open()`
the method returns with the connection still open. -/
theorem connection_close_discipline :
    (∀ (dry_run replace commit : Bool) (o : NapalmOracle),
       PDEvent.openCall ∈ deploy_config dry_run replace commit o →
       (deploy_config dry_run replace commit o).getLast? = some PDEvent.closeCall)
    ∧ (∀ (device : SyncDevice) (o : SyncOracle),
       o.open_ok = true → o.get_facts_ok = true → o.get_interfaces_ok = true →
       SyncEvent.openCall ∈ device_sync_run device o →
       (device_sync_run device o).getLast? = some SyncEvent.closeCall)
    ∧ (∀ (device : SyncDevice) (o : SyncOracle) (ip : String),
       device.has_napalm_driver = true → device.primary_ip4 = some ip →
       o.open_ok = true → o.get_facts_ok = false →
       SyncEvent.openCall ∈ device_sync_run device o
       ∧ SyncEvent.closeCall ∉ device_sync_run device o) := by
  refine ⟨?_, ?_, ?_⟩
  · intro dr rp cm o hopenEv
    by_cases hd : o.driver_ok = true
    · rcases hb : deploy_body dr rp cm o with ⟨evs, exc, cons⟩
      have hc := deploy_body_constructed dr rp cm o hd
      rw [hb] at hc
      simp only at hc
      subst hc
      rw [deploy_config, hb]
      dsimp only
      rcases exc with - | err
      · exact List.getLast?_concat _
      · cases err <;> exact List.getLast?_concat _
    · have hd' : o.driver_ok = false := by simpa using hd
      rw [deploy_config] at hopenEv
      rw [deploy_body, hd'] at hopenEv
      simp at hopenEv
  · intro device o ho hgf hgi hopenEv
    rcases device with ⟨name, hdrv, ip⟩
    cases hdrv with
    | false => simp [device_sync_run] at hopenEv
    | true =>
      rcases ip with - | ipaddr
      · simp [device_sync_run] at hopenEv
      · cases hip : o.get_interfaces_ip_ok <;>
          simp [device_sync_run, ho, hgf, hgi, hip, List.getLast?_concat]
  · intro device o ip hdrv hip ho hgf
    rcases device with ⟨name, hd2, ip2⟩
    simp only at hdrv hip
    subst hdrv; subst hip
    constructor <;> simp [device_sync_run, ho, hgf]

/-- Witness for `connection_close_discipline`: a fully successful deployment
session ends with `close()`. -/
theorem connection_close_discipline_witness :
    (deploy_config true false true { diff := "+ntp" }).getLast? =
      some PDEvent.closeCall :=
  connection_close_discipline.1 true false true { diff := "+ntp" } (by decide)

/-- **C7**: `ProvisionDevice` validates before any device interaction: a
device lacking a platform, lacking a NAPALM driver on its platform, or lacking
a primary IPv4 address makes `run` return right after `_validate_device`,
without retrieving credentials, generating intended configuration, or opening
any device connection. -/
theorem validate_before_device_interaction (device : PDDevice)
    (dry_run replace commit : Bool) (intended_config : Option String)
    (o : NapalmOracle)
    (h : device.platform = none
         ∨ (∃ p, device.platform = some p ∧ p.napalm_driver.isEmpty = true)
         ∨ device.primary_ip4 = none) :
    provision_run device dry_run replace commit intended_config o = [.validateCall]
    ∧ PDEvent.credentialsCall ∉ provision_run device dry_run replace commit intended_config o
    ∧ PDEvent.intendedConfigCall ∉ provision_run device dry_run replace commit intended_config o
    ∧ PDEvent.openCall ∉ provision_run device dry_run replace commit intended_config o := by
  have hv : validate_device device = false := by
    rcases h with h | ⟨p, hp, hdrv⟩ | h
    · simp [validate_device, h]
    · simp [validate_device, hp, hdrv]
    · cases hp : device.platform with
      | none => simp [validate_device, hp]
      | some p => simp [validate_device, hp, h]
  have hrun : provision_run device dry_run replace commit intended_config o =
      [.validateCall] := by
    simp [provision_run, hv]
  refine ⟨hrun, ?_, ?_, ?_⟩ <;> rw [hrun] <;> decide

/-- Witness for `validate_before_device_interaction`: a device with no
platform at all. -/
theorem validate_before_device_interaction_witness :
    provision_run { name := "leaf9" } true false true none {} = [.validateCall] :=
  (validate_before_device_interaction { name := "leaf9" } true false true none {}
    (Or.inl rfl)).1

/-! ## Theorems about `assign_loopback_ips` -/

/-- While the index stays within the host list, the assignment loop cannot
fail. -/
theorem assignLoop_isSome (hosts : List Nat) :
    ∀ (names : List String) (m : List (String × Nat)) (idx : Nat),
      idx + names.length ≤ hosts.length →
      (assignLoop hosts m idx names).isSome = true := by
  intro names
  induction names with
  | nil => intro m idx _; rfl
  | cons n rest ih =>
    intro m idx h
    rw [assignLoop]
    have hlt : idx < hosts.length := by simp at h; omega
    rw [List.get?_eq_get hlt]
    exact ih _ _ (by simp at h ⊢; omega)

/-- Once the names outnumber the remaining hosts, the unguarded `hosts[idx]`
goes out of bounds. -/
theorem assignLoop_none (hosts : List Nat) :
    ∀ (names : List String) (m : List (String × Nat)) (idx : Nat),
      hosts.length < idx + names.length → idx ≤ hosts.length →
      assignLoop hosts m idx names = none := by
  intro names
  induction names with
  | nil =>
    intro m idx h1 h2
    exfalso
    simp at h1
    omega
  | cons n rest ih =>
    intro m idx h1 h2
    rw [assignLoop]
    cases hg : hosts.get? idx with
    | none => rfl
    | some hosti =>
      have hlt : idx < hosts.length := by
        by_cases hlen : hosts.length ≤ idx
        · rw [List.get?_eq_none.mpr hlen] at hg; cases hg
        · omega
      exact ih _ _ (by simp at h1 ⊢; omega) (by omega)

/-- With distinct names and enough hosts, the loop builds exactly the
positional mapping: the `idx`-th name is bound to the `idx`-th remaining
host. -/
theorem assignLoop_nodup (hosts : List Nat) :
    ∀ (names : List String) (m : List (String × Nat)) (idx : Nat),
      names.Nodup → (∀ p ∈ m, p.1 ∉ names) →
      idx + names.length ≤ hosts.length →
      assignLoop hosts m idx names = some (m ++ names.zip (hosts.drop idx)) := by
  intro names
  induction names with
  | nil => intro m idx _ _ _; simp [assignLoop]
  | cons n rest ih =>
    intro m idx hnd hfresh hlen
    rw [assignLoop]
    have hlt : idx < hosts.length := by simp at hlen; omega
    rw [List.get?_eq_get hlt]
    have hany : m.any (fun p => p.1 == n) = false := by
      simp only [List.any_eq_false]
      intro p hp
      simp only [beq_iff_eq]
      intro he
      exact hfresh p hp (he ▸ List.mem_cons_self n rest)
    have hins : dictInsert m n (hosts.get ⟨idx, hlt⟩) =
        m ++ [(n, hosts.get ⟨idx, hlt⟩)] := by
      simp [dictInsert, hany]
    dsimp only
    rw [hins]
    have hfresh2 : ∀ p ∈ m ++ [(n, hosts.get ⟨idx, hlt⟩)], p.1 ∉ rest := by
      intro p hp
      rcases List.mem_append.mp hp with hp | hp
      · exact fun hc => hfresh p hp (List.mem_cons_of_mem n hc)
      · simp at hp
        subst hp
        exact (List.nodup_cons.mp hnd).1
    rw [ih _ (idx + 1) (List.Nodup.of_cons hnd) hfresh2 (by simp at hlen ⊢; omega)]
    rw [List.drop_eq_getElem_cons hlt, List.zip_cons_cons]
    simp [List.get_eq_getElem, List.append_assoc]

/-- **C10**: `assign_loopback_ips` is total exactly while the device list fits
the subnet's host addresses: within the bound it succeeds, with distinct names
it returns the positional mapping (the `idx`-th name to the `idx`-th host
address), and any longer device list hits the unguarded `hosts[idx]` out of
bounds and fails instead of returning a mapping. -/
theorem assign_loopback_ips_bounds (network prefixLen : Nat) :
    (∀ device_names : List String,
       device_names.length ≤ (ipNetworkHosts network prefixLen).length →
       (assign_loopback_ips network prefixLen device_names).isSome = true)
    ∧ (∀ device_names : List String, device_names.Nodup →
       device_names.length ≤ (ipNetworkHosts network prefixLen).length →
       assign_loopback_ips network prefixLen device_names =
         some (device_names.zip (ipNetworkHosts network prefixLen)))
    ∧ (∀ device_names : List String,
       (ipNetworkHosts network prefixLen).length < device_names.length →
       assign_loopback_ips network prefixLen device_names = none) := by
  refine ⟨?_, ?_, ?_⟩
  · intro names h
    exact assignLoop_isSome _ names [] 0 (by omega)
  · intro names hnd h
    have := assignLoop_nodup (ipNetworkHosts network prefixLen) names [] 0 hnd
      (by simp) (by omega)
    simpa using this
  · intro names h
    exact assignLoop_none _ names [] 0 (by omega) (by omega)

/-- Witness for `assign_loopback_ips_bounds`: the two lab access switches in a
/30 get its two host addresses. -/
theorem assign_loopback_ips_bounds_witness :
    assign_loopback_ips 0 30 ["access1", "access2"] =
      some (["access1", "access2"].zip (ipNetworkHosts 0 30)) :=
  (assign_loopback_ips_bounds 0 30).2.1 ["access1", "access2"]
    (by decide) (by decide)

end NautobotZeroToHero
